/-
Verification of the ch432 dual-UART SPI serial driver core (ch432.c)
against its natural-language specification.

The definitions below are a shallow embedding of the driver code:
pure register/byte computations become Lean functions on Nat (machine
bytes are Nat values taken mod 256 where the C code converts to u8),
register traces become explicit lists of bus operations, and the
external hooks (uart_handle_break, uart_handle_sysrq_char) become
boolean oracle parameters.
-/
import Mathlib

namespace CH432

/-! ## Register and bit constants (ch432.c lines 65-179) -/

def CH43X_RHR_REG : Nat := 0x00
def CH43X_THR_REG : Nat := 0x00
def CH43X_IER_REG : Nat := 0x01
def CH43X_IIR_REG : Nat := 0x02
def CH43X_FCR_REG : Nat := 0x02
def CH43X_LCR_REG : Nat := 0x03
def CH43X_MCR_REG : Nat := 0x04
def CH43X_LSR_REG : Nat := 0x05
def CH43X_MSR_REG : Nat := 0x06
def CH43X_SPR_REG : Nat := 0x07

/-- Divisor Latch Low, visible only when LCR bit 7 is set. -/
def CH43X_DLL_REG : Nat := 0x00
/-- Divisor Latch High, visible only when LCR bit 7 is set. -/
def CH43X_DLH_REG : Nat := 0x01

def CH43X_IER_RDI_BIT : Nat := 1
def CH43X_IER_THRI_BIT : Nat := 2
def CH43X_IER_RLSI_BIT : Nat := 4
def CH43X_IER_MSI_BIT : Nat := 8
def CH43X_IER_SLEEP_BIT : Nat := 0x20

def CH43X_LCR_STOPLEN_BIT : Nat := 4
def CH43X_LCR_PARITY_BIT : Nat := 8
def CH43X_LCR_ODDPARITY_BIT : Nat := 0
def CH43X_LCR_EVENPARITY_BIT : Nat := 0x10
def CH43X_LCR_MARKPARITY_BIT : Nat := 0x20
def CH43X_LCR_SPACEPARITY_BIT : Nat := 0x30
def CH43X_LCR_DLAB_BIT : Nat := 0x80
def CH43X_LCR_WORD_LEN_5 : Nat := 0x00
def CH43X_LCR_WORD_LEN_6 : Nat := 0x01
def CH43X_LCR_WORD_LEN_7 : Nat := 0x02
def CH43X_LCR_WORD_LEN_8 : Nat := 0x03
def CH43X_LCR_CONF_MODE_A : Nat := CH43X_LCR_DLAB_BIT

def CH43X_LSR_DR_BIT : Nat := 1
def CH43X_LSR_OE_BIT : Nat := 2
def CH43X_LSR_PE_BIT : Nat := 4
def CH43X_LSR_FE_BIT : Nat := 8
def CH43X_LSR_BI_BIT : Nat := 0x10
def CH43X_LSR_BRK_ERROR_MASK : Nat := 0x1E
def CH43X_LSR_THRE_BIT : Nat := 0x20
def CH43X_LSR_TEMT_BIT : Nat := 0x40
def CH43X_LSR_FIFOE_BIT : Nat := 0x80

def CH43X_FIFO_SIZE : Nat := 16

/-! ## Linux kernel constants used by the driver (serial_core / termbits) -/

/-- tty flag byte values from the kernel (tty_flip). -/
def TTY_NORMAL : Nat := 0
def TTY_BREAK : Nat := 1
def TTY_FRAME : Nat := 2
def TTY_PARITY : Nat := 3
def TTY_OVERRUN : Nat := 4

/-- Size of the line-discipline circular transmit buffer (UART_XMIT_SIZE = PAGE_SIZE). -/
def UART_XMIT_SIZE : Nat := 4096
/-- Low-water threshold below which writers are woken (serial_core WAKEUP_CHARS). -/
def WAKEUP_CHARS : Nat := 256

/-- termios c_cflag bits (asm-generic/termbits.h). -/
def CSIZE : Nat := 0x30
def CS5 : Nat := 0x00
def CS6 : Nat := 0x10
def CS7 : Nat := 0x20
def CS8 : Nat := 0x30
def CSTOPB : Nat := 0x40
def CREAD : Nat := 0x80
def PARENB : Nat := 0x100
def PARODD : Nat := 0x200
def CRTSCTS : Nat := 0x80000000
def CMSPAR : Nat := 0x40000000

/-- termios c_iflag bits (asm-generic/termbits.h). -/
def IGNBRK : Nat := 0x01
def BRKINT : Nat := 0x02
def PARMRK : Nat := 0x08
def INPCK : Nat := 0x10

/-- serial_rs485 flags bit. -/
def SER_RS485_ENABLED : Nat := 1

/-- Mask of an unsigned 32-bit C integer; `x &&& (U32MASK ^^^ m)` models `x & ~m`. -/
def U32MASK : Nat := 0xFFFFFFFF

/-- Conversion to a u8 function parameter or register byte. -/
def u8 (n : Nat) : Nat := n % 256

/-! ## Baud rate programming (ch43x_set_baud, lines 374-399)

The function reads LCR (the read result is the `lcr` parameter), switches
the channel into divisor-access mode, writes divisor high byte then low
byte, restores LCR, and returns `DIV_ROUND_CLOSEST(clk/16, div)`.
Each write is a `(register, byte)` pair; the byte is the u8 conversion of
the C argument. The return expression divides by `div`; C behaviour is
undefined for `div = 0`, so theorems about the returned value carry the
hypothesis `1 ≤ div`. -/

/-- Kernel macro DIV_ROUND_CLOSEST for unsigned arguments: `(x + d/2) / d`. -/
def div_round_closest (x d : Nat) : Nat := (x + d / 2) / d

structure BaudResult where
  writes : List (Nat × Nat)
  ret : Nat
deriving DecidableEq, Repr

/-- Model of `ch43x_set_baud`: `div = clk / 16 / baud`, then the four
LCR/DLH/DLL/LCR register writes in source order, returning
`DIV_ROUND_CLOSEST(clk / 16, div)`. -/
def ch43x_set_baud (clk baud lcr : Nat) : BaudResult :=
  let d := clk / 16 / baud
  { writes := [ (CH43X_LCR_REG, u8 CH43X_LCR_CONF_MODE_A),
                (CH43X_DLH_REG, u8 (d / 256)),
                (CH43X_DLL_REG, u8 (d % 256)),
                (CH43X_LCR_REG, u8 lcr) ],
    ret := div_round_closest (clk / 16) d }

/-! ## TX drain (ch43x_handle_tx, lines 529-575)

State of one port as seen by the TX path: the pending immediate control
character `x_char` (0 meaning none), the administrative stop flag
(`uart_tx_stopped`), the line-discipline circular buffer, and the
transmitted-byte counter. Outputs are the bus-visible and
line-discipline-visible events of one invocation, in order. -/

structure CircBuf where
  buf : Nat → Nat
  head : Nat
  tail : Nat

/-- `uart_circ_empty`: head equals tail. -/
def uart_circ_empty (x : CircBuf) : Bool := x.head == x.tail

/-- `uart_circ_chars_pending` = `CIRC_CNT(head, tail, UART_XMIT_SIZE)` =
`(head - tail) & (UART_XMIT_SIZE - 1)`, written for Nat under the
invariant `head, tail < UART_XMIT_SIZE`. -/
def uart_circ_chars_pending (x : CircBuf) : Nat :=
  (x.head + UART_XMIT_SIZE - x.tail) % UART_XMIT_SIZE

inductive TxEvent where
  /-- single register write of the x_char to THR -/
  | thr (v : Nat)
  /-- one burst write (`ch43x_raw_write`) of the linearized chunk -/
  | burst (bytes : List Nat)
  /-- `ch43x_port_update(IER, THRI, 0)`: TX-ready interrupt source disabled -/
  | thriOff
  /-- `uart_write_wakeup` low-water signal to the line discipline -/
  | wakeup
deriving DecidableEq, Repr

structure TxPort where
  x_char : Nat
  stopped : Bool
  xmit : CircBuf
  tx_count : Nat

/-- The linearization loop of `ch43x_handle_tx` (lines 564-567): copy `n`
bytes from the circular buffer starting at `tail`, advancing the tail mod
`UART_XMIT_SIZE` after each byte; returns the scratch-buffer contents and
the final tail. -/
def txCopy (buf : Nat → Nat) (tail : Nat) : Nat → List Nat × Nat
  | 0 => ([], tail)
  | n + 1 =>
    let b := u8 (buf tail)
    let r := txCopy buf ((tail + 1) % UART_XMIT_SIZE) n
    (b :: r.1, r.2)

/-- Model of `ch43x_handle_tx`: x_char fast path; empty-or-stopped path
disabling THRI; otherwise chunk `min(pending, CH43X_FIFO_SIZE)` bytes out
of the circular buffer, burst-write them, and finally signal wakeup when
fewer than `WAKEUP_CHARS` bytes remain pending. -/
def ch43x_handle_tx (p : TxPort) : TxPort × List TxEvent :=
  if p.x_char ≠ 0 then
    ({ p with tx_count := p.tx_count + 1, x_char := 0 }, [TxEvent.thr (u8 p.x_char)])
  else if uart_circ_empty p.xmit || p.stopped then
    (p, [TxEvent.thriOff])
  else
    let to_send0 := uart_circ_chars_pending p.xmit
    let step :=
      if to_send0 ≠ 0 then
        let to_send := if to_send0 > CH43X_FIFO_SIZE then CH43X_FIFO_SIZE else to_send0
        let cp := txCopy p.xmit.buf p.xmit.tail to_send
        ({ p with tx_count := p.tx_count + to_send,
                  xmit := { p.xmit with tail := cp.2 } }, [TxEvent.burst cp.1])
      else (p, ([] : List TxEvent))
    if uart_circ_chars_pending step.1.xmit < WAKEUP_CHARS then
      (step.1, step.2 ++ [TxEvent.wakeup])
    else step

/-- Sizes of the burst writes among a list of TX events. -/
def burstSizes (es : List TxEvent) : List Nat :=
  es.filterMap fun e => match e with
    | TxEvent.burst b => some b.length
    | _ => none

/-- Initial scenario of claim C2: a circular source holding 40 pending
bytes (tail 0, head 40), no x_char, transmission not stopped. -/
def txScenario0 : TxPort :=
  { x_char := 0, stopped := false, tx_count := 0,
    xmit := { buf := fun i => i % 256, head := 40, tail := 0 } }

/-- The port state after `n` invocations of the TX drain on `txScenario0`. -/
def txAfter : Nat → TxPort
  | 0 => txScenario0
  | n + 1 => (ch43x_handle_tx (txAfter n)).1

/-- The events emitted by invocation `n+1` of the TX drain on `txScenario0`. -/
def txEvents (n : Nat) : List TxEvent := (ch43x_handle_tx (txAfter n)).2

/-! ## RX error classification (ch43x_handle_rx, per-byte body, lines 488-521)

For one received byte the loop body reads the line-status byte `lsr`,
bumps the per-type error counters, masks `lsr` with the channel
`read_status_mask`, derives the tty flag, and delivers the byte via
`uart_insert_char(port, lsr, CH43X_LSR_OE_BIT, ch, flag)` unless one of
the external hooks consumed it. The data byte `ch` flows to the sink
unchanged, so the model records each delivery as the pair
(tty flag, overrun-indicator) where the indicator is the OE bit of the
`lsr` value passed to the sink. The external hooks `uart_handle_break`
and `uart_handle_sysrq_char` are the boolean oracles `bc` and `sc`. -/

structure RxResult where
  /-- tty flag derived for this byte -/
  flag : Nat
  /-- increment of icount.rx (always 1 per byte) -/
  rx : Nat
  /-- increment of icount.brk -/
  brk : Nat
  /-- increment of icount.parity -/
  parity : Nat
  /-- increment of icount.frame -/
  frame : Nat
  /-- increment of icount.overrun -/
  overrun : Nat
  /-- `some (flag, overrun indicator)` when `uart_insert_char` runs, `none`
  when an external hook consumed the byte (`goto ignore_char`) -/
  delivered : Option (Nat × Bool)
deriving DecidableEq, Repr

/-- Common tail of the error path (lines 505-520): `lsr2` is the status
after `lsr &= port->read_status_mask`; derive the flag in priority order
break > parity > frame, then deliver unless the sysrq hook consumed the
byte. -/
def rxDeliver (lsr2 brk parity frame overrun : Nat) (sc : Bool) : RxResult :=
  let flag :=
    if lsr2 &&& CH43X_LSR_BI_BIT ≠ 0 then TTY_BREAK
    else if lsr2 &&& CH43X_LSR_PE_BIT ≠ 0 then TTY_PARITY
    else if lsr2 &&& CH43X_LSR_FE_BIT ≠ 0 then TTY_FRAME
    else TTY_NORMAL
  if sc then
    { flag := flag, rx := 1, brk := brk, parity := parity, frame := frame,
      overrun := overrun, delivered := none }
  else
    { flag := flag, rx := 1, brk := brk, parity := parity, frame := frame,
      overrun := overrun,
      delivered := some (flag, decide (lsr2 &&& CH43X_LSR_OE_BIT ≠ 0)) }

/-- Per-byte classification of `ch43x_handle_rx`. On break the FE and PE
bits are first cleared from `lsr` and only the break counter increments;
the parity/frame/overrun counters form an else-if chain. When no bit of
`CH43X_LSR_BRK_ERROR_MASK` is set, `lsr` is passed to the sink unmasked
with the normal flag. -/
def ch43x_rx_classify (lsr mask : Nat) (bc sc : Bool) : RxResult :=
  if lsr &&& CH43X_LSR_BRK_ERROR_MASK ≠ 0 then
    if lsr &&& CH43X_LSR_BI_BIT ≠ 0 then
      if bc then
        { flag := TTY_NORMAL, rx := 1, brk := 1, parity := 0, frame := 0,
          overrun := 0, delivered := none }
      else
        rxDeliver
          ((lsr &&& (U32MASK ^^^ (CH43X_LSR_FE_BIT ||| CH43X_LSR_PE_BIT))) &&& mask)
          1 0 0 0 sc
    else if lsr &&& CH43X_LSR_PE_BIT ≠ 0 then rxDeliver (lsr &&& mask) 0 1 0 0 sc
    else if lsr &&& CH43X_LSR_FE_BIT ≠ 0 then rxDeliver (lsr &&& mask) 0 0 1 0 sc
    else if lsr &&& CH43X_LSR_OE_BIT ≠ 0 then rxDeliver (lsr &&& mask) 0 0 0 1 sc
    else rxDeliver (lsr &&& mask) 0 0 0 0 sc
  else if sc then
    { flag := TTY_NORMAL, rx := 1, brk := 0, parity := 0, frame := 0,
      overrun := 0, delivered := none }
  else
    { flag := TTY_NORMAL, rx := 1, brk := 0, parity := 0, frame := 0,
      overrun := 0,
      delivered := some (TTY_NORMAL, decide (lsr &&& CH43X_LSR_OE_BIT ≠ 0)) }

/-! ## Line configuration (ch43x_set_termios, lines 811-917) -/

/-- The word-size `switch` of `ch43x_set_termios` (lines 828-846), as a
function of the scrutinee `cs = c_cflag & CSIZE` and of the request word
`c_cflag`: each defined size yields its 2-bit LCR encoding; the default
arm yields the 8-bit encoding and rewrites the request to CS8
(`c_cflag &= ~CSIZE; c_cflag |= CS8`). Returns (LCR word bits, updated
c_cflag). -/
def ch43x_word_switch (cs c_cflag : Nat) : Nat × Nat :=
  if cs = CS5 then (CH43X_LCR_WORD_LEN_5, c_cflag)
  else if cs = CS6 then (CH43X_LCR_WORD_LEN_6, c_cflag)
  else if cs = CS7 then (CH43X_LCR_WORD_LEN_7, c_cflag)
  else if cs = CS8 then (CH43X_LCR_WORD_LEN_8, c_cflag)
  else (CH43X_LCR_WORD_LEN_8, (c_cflag &&& (U32MASK ^^^ CSIZE)) ||| CS8)

/-- LCR composition of `ch43x_set_termios` (lines 824-877): strip CMSPAR
from the request, derive the word-length bits, compute
`bParityType = PARENB ? (PARODD ? 1 : 2) + (CMSPAR ? 2 : 0) : 0`, set the
parity field accordingly (clearing the parity-enable bit for type 0), and
set the stop-length bit when CSTOPB is requested. Returns (LCR byte,
final c_cflag). -/
def ch43x_compose_lcr (c_cflag0 : Nat) : Nat × Nat :=
  let cflag1 := c_cflag0 &&& (U32MASK ^^^ CMSPAR)
  let ws := ch43x_word_switch (cflag1 &&& CSIZE) cflag1
  let cflag2 := ws.2
  let bParityType :=
    if cflag2 &&& PARENB ≠ 0 then
      (if cflag2 &&& PARODD ≠ 0 then 1 else 2) +
      (if cflag2 &&& CMSPAR ≠ 0 then 2 else 0)
    else 0
  let lcr1 := ws.1 ||| CH43X_LCR_PARITY_BIT
  let lcr2 :=
    if bParityType = 1 then lcr1 ||| CH43X_LCR_ODDPARITY_BIT
    else if bParityType = 2 then lcr1 ||| CH43X_LCR_EVENPARITY_BIT
    else if bParityType = 3 then lcr1 ||| CH43X_LCR_MARKPARITY_BIT
    else if bParityType = 4 then lcr1 ||| CH43X_LCR_SPACEPARITY_BIT
    else lcr1 &&& (U32MASK ^^^ CH43X_LCR_PARITY_BIT)
  let lcr3 := if cflag2 &&& CSTOPB ≠ 0 then lcr2 ||| CH43X_LCR_STOPLEN_BIT else lcr2
  (lcr3, cflag2)

/-- Read-status-mask derivation of `ch43x_set_termios` (lines 879-884):
always the overrun bit; parity and frame bits when INPCK is requested;
break bit when BRKINT or PARMRK is requested. -/
def ch43x_read_status_mask (c_iflag : Nat) : Nat :=
  let m := CH43X_LSR_OE_BIT
  let m := if c_iflag &&& INPCK ≠ 0 then
             m ||| (CH43X_LSR_PE_BIT ||| CH43X_LSR_FE_BIT) else m
  if c_iflag &&& (BRKINT ||| PARMRK) ≠ 0 then m ||| CH43X_LSR_BI_BIT else m

/-- Ignore-status-mask derivation of `ch43x_set_termios` (lines 886-891). -/
def ch43x_ignore_status_mask (c_iflag c_cflag : Nat) : Nat :=
  let m := 0
  let m := if c_iflag &&& IGNBRK ≠ 0 then m ||| CH43X_LSR_BI_BIT else m
  if c_cflag &&& CREAD = 0 then m ||| CH43X_LSR_BRK_ERROR_MASK else m

/-- The configuration universe of claim C5. -/
inductive Parity where
  | pnone
  | podd
  | peven
  | pmark
  | pspace
deriving DecidableEq, Repr

structure LineConfig where
  wordBits : Nat
  parity : Parity
  stopBits : Nat
deriving DecidableEq, Repr

/-- Standard termios encoding of a configuration into c_cflag, the form
in which the external layer hands requests to `ch43x_set_termios`
(mark = PARENB|PARODD|CMSPAR, space = PARENB|CMSPAR). -/
def cflagOfConfig (c : LineConfig) : Nat :=
  (if c.wordBits = 5 then CS5
   else if c.wordBits = 6 then CS6
   else if c.wordBits = 7 then CS7
   else CS8) |||
  (match c.parity with
   | Parity.pnone => 0
   | Parity.podd => PARENB ||| PARODD
   | Parity.peven => PARENB
   | Parity.pmark => PARENB ||| PARODD ||| CMSPAR
   | Parity.pspace => PARENB ||| CMSPAR) |||
  (if c.stopBits = 2 then CSTOPB else 0)

/-! ## Deferred stop-tx / stop-rx work bodies (lines 693-728) -/

/-- serial_rs485 record as stored on the channel. -/
structure SerialRs485 where
  flags : Nat
  delay_rts_before_send : Nat
  delay_rts_after_send : Nat
deriving DecidableEq, Repr

/-- Observable actions of a deferred work body, in execution order. -/
inductive WEvent where
  /-- `mdelay(ms)` blocking delay -/
  | mdelay (ms : Nat)
  /-- `ch43x_port_update(IER, bits, 0)`: the named IER bits are cleared -/
  | ierClear (bits : Nat)
deriving DecidableEq, Repr

/-- Model of `ch43x_stop_tx_work_proc` (lines 706-728). `lsr` is the value
the body would read from the line-status register; `xmit_empty` is
`uart_circ_empty(xmit)`. With RS485 enabled the body returns immediately
(no event at all) while the transmitter-empty bit is clear; otherwise it
optionally sleeps `delay_rts_after_send` and always ends by clearing the
THRI interrupt enable. -/
def ch43x_stop_tx_work (rs485 : SerialRs485) (lsr : Nat) (xmit_empty : Bool) :
    List WEvent :=
  let pre : Option (List WEvent) :=
    if rs485.flags &&& SER_RS485_ENABLED ≠ 0 then
      if lsr &&& CH43X_LSR_TEMT_BIT = 0 then none
      else if xmit_empty ∧ 0 < rs485.delay_rts_after_send then
        some [WEvent.mdelay rs485.delay_rts_after_send]
      else some []
    else some []
  match pre with
  | none => []
  | some es => es ++ [WEvent.ierClear CH43X_IER_THRI_BIT]

structure StopRxResult where
  read_status_mask : Nat
  ier : Nat
  events : List WEvent
deriving DecidableEq, Repr

/-- Model of `ch43x_stop_rx_work_proc` (lines 693-704): clear the
`CH43X_LSR_DR_BIT` (data-ready) bit from the channel read-status-mask,
then `ch43x_port_update(IER, RDI, 0)` and `ch43x_port_update(IER, RLSI, 0)`.
`read_status_mask` and `ier` are the values before the call (register
bytes are < 256 in the device). -/
def ch43x_stop_rx_work (read_status_mask ier : Nat) : StopRxResult :=
  let m := read_status_mask &&& (U32MASK ^^^ CH43X_LSR_DR_BIT)
  let ier1 := ier &&& (U32MASK ^^^ CH43X_IER_RDI_BIT)
  let ier2 := ier1 &&& (U32MASK ^^^ CH43X_IER_RLSI_BIT)
  { read_status_mask := m, ier := ier2,
    events := [WEvent.ierClear CH43X_IER_RDI_BIT, WEvent.ierClear CH43X_IER_RLSI_BIT] }

/-! ## Shutdown (ch43x_shutdown, lines 987-1004, and ch43x_power, 364-367) -/

/-- Register file of the chip: channel index and register number to byte. -/
def RegFile : Type := Nat → Nat → Nat

/-- Register read (`ch43x_port_read_specify` returns a u8). -/
def regRead (f : RegFile) (c r : Nat) : Nat := u8 (f c r)

/-- Register write; the value parameter is a u8. -/
def regWrite (f : RegFile) (c r v : Nat) : RegFile :=
  fun c2 r2 => if c2 = c ∧ r2 = r then u8 v else f c2 r2

/-- One bus transaction as seen on the SPI side. -/
inductive BusOp where
  | rd (chan reg : Nat)
  | wr (chan reg val : Nat)
deriving DecidableEq, Repr

/-- `ch43x_port_update_specify` (lines 305-313): read the register of
channel `portnum`, clear the `mask` bits, OR in `val & mask`, write back. -/
def ch43x_port_update_specify (regs : RegFile) (portnum reg mask val : Nat) :
    RegFile × List BusOp :=
  let tmp := regRead regs portnum reg
  let tmp2 := (tmp &&& (U32MASK ^^^ mask)) ||| (val &&& mask)
  (regWrite regs portnum reg tmp2,
   [BusOp.rd portnum reg, BusOp.wr portnum reg (u8 tmp2)])

/-- `ch43x_power` (lines 364-367): sets or clears the sleep bit, always in
channel 0's IER register (the source passes portnum 0 regardless of the
port argument). -/
def ch43x_power (regs : RegFile) (powerOn : Bool) : RegFile × List BusOp :=
  ch43x_port_update_specify regs 0 CH43X_IER_REG CH43X_IER_SLEEP_BIT
    (if powerOn then 0 else CH43X_IER_SLEEP_BIT)

structure ShutdownResult where
  regs : RegFile
  mcr_force : Nat
  trace : List BusOp

/-- Model of `ch43x_shutdown` (lines 987-1004) for the channel `line`:
IER is written to zero only when `line = 0`; then the channel MCR is
written to zero, the forced modem-control bits are cleared, and
`ch43x_power(port, 0)` sets the sleep bit through channel 0's IER.
(The three `dev_vdbg` register reads at lines 993-995 sit inside an
`if (0)` when VERBOSE_DEBUG is undefined, as it is in this source, so
they do not execute.) -/
def ch43x_shutdown (regs : RegFile) (line : Nat) : ShutdownResult :=
  let st1 : RegFile × List BusOp :=
    if line = 0 then
      (regWrite regs 0 CH43X_IER_REG 0, [BusOp.wr 0 CH43X_IER_REG 0])
    else (regs, [])
  let regs2 := regWrite st1.1 line CH43X_MCR_REG 0
  let st3 := ch43x_power regs2 false
  { regs := st3.1, mcr_force := 0,
    trace := st1.2 ++ [BusOp.wr line CH43X_MCR_REG 0] ++ st3.2 }

/-- Does a bus operation write to the IER register of channel `line`? -/
def writesIER (line : Nat) : BusOp → Bool
  | BusOp.wr c r _ => c == line && r == CH43X_IER_REG
  | BusOp.rd _ _ => false

/-- Decoder of an LCR byte back into a configuration, following the
register bit tables of ch432.c lines 109-140 (word length in bits 0-1,
stop length in bit 2, parity enable in bit 3, odd/even/mark/space in
bits 4-5). This definition follows the spec notion of decomposing the
written byte; it is the comparison point for the round-trip claim. -/
def lcrDecode (lcr : Nat) : LineConfig :=
  { wordBits := 5 + (lcr &&& 3),
    parity :=
      if lcr &&& CH43X_LCR_PARITY_BIT = 0 then Parity.pnone
      else if (lcr >>> 4) &&& 3 = 0 then Parity.podd
      else if (lcr >>> 4) &&& 3 = 1 then Parity.peven
      else if (lcr >>> 4) &&& 3 = 2 then Parity.pmark
      else Parity.pspace,
    stopBits := if lcr &&& CH43X_LCR_STOPLEN_BIT = 0 then 1 else 2 }

end CH432

namespace CH432

/-! ## Theorems for claim C1 -/

/-- Claim C1, counterexample. The requested baud 42 lies in the supported
range `[clock/16/65535, clock/16*24]` as the driver computes it
(`ch43x_set_termios` line 911 passes `uartclk/16/0xffff = 42` as the
minimum to `uart_get_baud_rate`), yet the divisor `floor(clock/16/42) =
65828` does not fit the two 8-bit latch registers: the bytes actually
written are DLH = 1 and DLL = 36, i.e. the programmed divisor is 292, not
65828. So the claim fails at baud 42. -/
theorem set_baud_claim_false_at_42 :
    (44236800 / 16 / 65535 ≤ 42 ∧ 42 ≤ 44236800 / 16 * 24) ∧
    (ch43x_set_baud 44236800 42 3).writes =
      [(CH43X_LCR_REG, 128), (CH43X_DLH_REG, 1), (CH43X_DLL_REG, 36),
       (CH43X_LCR_REG, 3)] ∧
    1 * 256 + 36 ≠ 44236800 / 16 / 42 := by
  decide

/-- Claim C1, amended: when the divisor `floor(clk/16/baud)` lies in
`[1, 65535]` (so that it both avoids the divide-by-zero in the returned
`DIV_ROUND_CLOSEST` and fits the two byte-wide latch registers),
`ch43x_set_baud` programs exactly that divisor — divisor-access mode on,
high byte, low byte, LCR restored — and returns
`round_closest(clk/16, divisor)`. -/
theorem set_baud_programs_divisor (clk baud lcr : Nat)
    (hlcr : lcr < 256)
    (h1 : 1 ≤ clk / 16 / baud) (h2 : clk / 16 / baud ≤ 65535) :
    (ch43x_set_baud clk baud lcr).writes =
      [(CH43X_LCR_REG, CH43X_LCR_CONF_MODE_A),
       (CH43X_DLH_REG, clk / 16 / baud / 256),
       (CH43X_DLL_REG, clk / 16 / baud % 256),
       (CH43X_LCR_REG, lcr)] ∧
    clk / 16 / baud / 256 * 256 + clk / 16 / baud % 256 = clk / 16 / baud ∧
    (ch43x_set_baud clk baud lcr).ret =
      div_round_closest (clk / 16) (clk / 16 / baud) := by
  refine ⟨?_, by omega, rfl⟩
  have hd : clk / 16 / baud / 256 < 256 := by omega
  have hm : clk / 16 / baud % 256 < 256 := by omega
  simp [ch43x_set_baud, u8, Nat.mod_eq_of_lt hd, Nat.mod_eq_of_lt hm,
    Nat.mod_eq_of_lt hlcr, CH43X_LCR_CONF_MODE_A, CH43X_LCR_DLAB_BIT]

/-- Claim C1, witness: the amended theorem at clock 44236800 and baud 9600
yields divisor 288 (DLH = 1, DLL = 32) and achieved baud exactly 9600. -/
theorem set_baud_witness_9600 :
    44236800 / 16 / 9600 = 288 ∧
    (ch43x_set_baud 44236800 9600 3).writes =
      [(CH43X_LCR_REG, 128), (CH43X_DLH_REG, 1), (CH43X_DLL_REG, 32),
       (CH43X_LCR_REG, 3)] ∧
    (ch43x_set_baud 44236800 9600 3).ret = 9600 := by
  have h := set_baud_programs_divisor 44236800 9600 3
    (by decide) (by decide) (by decide)
  refine ⟨by decide, ?_, ?_⟩
  · rw [h.1]; decide
  · rw [h.2.2]; decide

/-! ## Theorems for claim C2 -/

/-- Claim C2: with 40 bytes pending in the circular source, FIFO depth 16,
no x_char and transmission not stopped, three successive TX-drain
invocations emit burst writes of sizes 16, 16 and 8 in that order, the
source tail advances by exactly the emitted chunk size each time
(0 → 16 → 32 → 40), and a fourth invocation emits no burst at all. -/
theorem handle_tx_chunks_40_as_16_16_8 :
    burstSizes (txEvents 0) = [16] ∧ (txAfter 1).xmit.tail = 16 ∧
    burstSizes (txEvents 1) = [16] ∧ (txAfter 2).xmit.tail = 32 ∧
    burstSizes (txEvents 2) = [8] ∧ (txAfter 3).xmit.tail = 40 ∧
    burstSizes (txEvents 3) = [] ∧ (txAfter 4).xmit.tail = 40 := by
  decide

/-! ## Bitwise helper lemmas shared by the RX/IER theorems -/

theorem land_sub_zero (a m c : Nat) (hmc : m &&& c = c) (h : a &&& m = 0) :
    a &&& c = 0 := by
  rw [← hmc, ← Nat.land_assoc, h, Nat.zero_and]

theorem land_sub_ne (a m c : Nat) (hmc : m &&& c = c) (h : a &&& c ≠ 0) :
    a &&& m ≠ 0 :=
  fun hc => h (land_sub_zero a m c hmc hc)

theorem land_left_zero (a m c : Nat) (h : a &&& c = 0) : (a &&& m) &&& c = 0 := by
  rw [Nat.land_assoc, Nat.land_comm m c, ← Nat.land_assoc, h, Nat.zero_and]

theorem land_right_zero (x m c : Nat) (hmc : m &&& c = 0) : (x &&& m) &&& c = 0 := by
  rw [Nat.land_assoc, hmc, Nat.and_zero]

theorem land_mid_zero (a x m c : Nat) (hxc : x &&& c = 0) :
    ((a &&& x) &&& m) &&& c = 0 :=
  land_left_zero (a &&& x) m c (land_right_zero a x c hxc)

theorem land_two_pow_ne_zero_iff (x i : Nat) :
    x &&& 2 ^ i ≠ 0 ↔ x.testBit i = true := by
  rw [Nat.and_two_pow]
  cases h : x.testBit i <;> simp [h, Nat.pow_eq_zero]

theorem land_land_ne (a x m c i : Nat) (hc : c = 2 ^ i) (hx : x.testBit i = true)
    (ha : a &&& c ≠ 0) (hm : m &&& c ≠ 0) : ((a &&& x) &&& m) &&& c ≠ 0 := by
  rw [hc] at ha hm ⊢
  rw [land_two_pow_ne_zero_iff] at ha hm ⊢
  simp [Nat.testBit_land, ha, hm, hx]

theorem land2_ne_right (y mask c : Nat) (h : (y &&& mask) &&& c ≠ 0) :
    mask &&& c ≠ 0 :=
  fun hc => h (land_right_zero y mask c hc)

theorem land2_ne_left (y mask c : Nat) (h : (y &&& mask) &&& c ≠ 0) :
    y &&& c ≠ 0 :=
  fun hc => h (land_left_zero y mask c hc)

theorem lor_land_self (a b : Nat) : (a ||| b) &&& b = b := by
  apply Nat.eq_of_testBit_eq
  intro i
  rw [Nat.testBit_land, Nat.testBit_lor]
  cases a.testBit i <;> cases b.testBit i <;> rfl

/-! ## Facts about the common RX delivery tail -/

theorem rxDeliver_overrun (lsr2 b p f o : Nat) (sc : Bool) :
    (rxDeliver lsr2 b p f o sc).overrun = o := by
  unfold rxDeliver
  cases sc <;> rfl

theorem rxDeliver_flag_ne_overrun (lsr2 b p f o : Nat) (sc : Bool) :
    (rxDeliver lsr2 b p f o sc).flag ≠ TTY_OVERRUN := by
  unfold rxDeliver
  cases sc <;> simp <;> split_ifs <;>
    simp [TTY_BREAK, TTY_PARITY, TTY_FRAME, TTY_NORMAL, TTY_OVERRUN]

theorem rxDeliver_delivered_ind (lsr2 b p f o : Nat) (sc : Bool) (fl : Nat) (i : Bool)
    (hp : (rxDeliver lsr2 b p f o sc).delivered = some (fl, i)) (hi : i = true) :
    lsr2 &&& CH43X_LSR_OE_BIT ≠ 0 := by
  unfold rxDeliver at hp
  cases sc
  · subst hi
    simp at hp
    exact hp.2
  · simp at hp

/-! ## Theorems for claim C3 -/

/-- Claim C3, counterexample. With break, parity and frame all set in the
status byte (lsr = 0x1D) but a read-status-mask that does not retain the
break bit — here 0x0E, exactly what the configuration path derives when
INPCK is requested without BRKINT/PARMRK — the delivered flag is the
normal flag, not the break flag. The claim asserts the break flag
unconditionally, so it fails at this input. -/
theorem rx_break_flag_claim_false :
    ch43x_read_status_mask 0x10 = 0x0E ∧
    (ch43x_rx_classify 0x1D 0x0E false false).flag = TTY_NORMAL ∧
    (ch43x_rx_classify 0x1D 0x0E false false).delivered = some (TTY_NORMAL, false) ∧
    TTY_NORMAL ≠ TTY_BREAK := by
  decide

/-- Claim C3, amended: whenever the break bit is set in the status byte
(in particular when break, parity and frame are all set), the parity and
frame counters do not increment (only the break counter does), the
derived flag is never parity or frame, it is the break flag whenever the
break hook does not consume the byte and the read-status-mask retains the
break bit, and it is the normal flag whenever the mask filters the break
bit out. -/
theorem rx_break_priority (lsr mask : Nat) (bc sc : Bool)
    (h : lsr &&& CH43X_LSR_BI_BIT ≠ 0) :
    (ch43x_rx_classify lsr mask bc sc).parity = 0 ∧
    (ch43x_rx_classify lsr mask bc sc).frame = 0 ∧
    (ch43x_rx_classify lsr mask bc sc).brk = 1 ∧
    (ch43x_rx_classify lsr mask bc sc).flag ≠ TTY_PARITY ∧
    (ch43x_rx_classify lsr mask bc sc).flag ≠ TTY_FRAME ∧
    (bc = false → mask &&& CH43X_LSR_BI_BIT ≠ 0 →
      (ch43x_rx_classify lsr mask bc sc).flag = TTY_BREAK) ∧
    (mask &&& CH43X_LSR_BI_BIT = 0 →
      (ch43x_rx_classify lsr mask bc sc).flag = TTY_NORMAL) := by
  have h30 : lsr &&& CH43X_LSR_BRK_ERROR_MASK ≠ 0 :=
    land_sub_ne lsr CH43X_LSR_BRK_ERROR_MASK CH43X_LSR_BI_BIT (by decide) h
  have hPE : ((lsr &&& (U32MASK ^^^ (CH43X_LSR_FE_BIT ||| CH43X_LSR_PE_BIT))) &&& mask)
      &&& CH43X_LSR_PE_BIT = 0 :=
    land_mid_zero lsr (U32MASK ^^^ (CH43X_LSR_FE_BIT ||| CH43X_LSR_PE_BIT)) mask
      CH43X_LSR_PE_BIT (by decide)
  have hFE : ((lsr &&& (U32MASK ^^^ (CH43X_LSR_FE_BIT ||| CH43X_LSR_PE_BIT))) &&& mask)
      &&& CH43X_LSR_FE_BIT = 0 :=
    land_mid_zero lsr (U32MASK ^^^ (CH43X_LSR_FE_BIT ||| CH43X_LSR_PE_BIT)) mask
      CH43X_LSR_FE_BIT (by decide)
  by_cases hm : mask &&& CH43X_LSR_BI_BIT = 0
  · have hBI2 : ((lsr &&& (U32MASK ^^^ (CH43X_LSR_FE_BIT ||| CH43X_LSR_PE_BIT))) &&& mask)
        &&& CH43X_LSR_BI_BIT = 0 :=
      land_right_zero (lsr &&& (U32MASK ^^^ (CH43X_LSR_FE_BIT ||| CH43X_LSR_PE_BIT))) mask
        CH43X_LSR_BI_BIT hm
    cases bc <;> cases sc <;>
      simp [ch43x_rx_classify, rxDeliver, h30, h, hPE, hFE, hBI2, hm,
        TTY_NORMAL, TTY_BREAK, TTY_FRAME, TTY_PARITY]
  · have hBI2 : ((lsr &&& (U32MASK ^^^ (CH43X_LSR_FE_BIT ||| CH43X_LSR_PE_BIT))) &&& mask)
        &&& CH43X_LSR_BI_BIT ≠ 0 :=
      land_land_ne lsr (U32MASK ^^^ (CH43X_LSR_FE_BIT ||| CH43X_LSR_PE_BIT)) mask
        CH43X_LSR_BI_BIT 4 (by decide) (by decide) h hm
    cases bc <;> cases sc <;>
      simp [ch43x_rx_classify, rxDeliver, h30, h, hPE, hFE, hBI2, hm,
        TTY_NORMAL, TTY_BREAK, TTY_FRAME, TTY_PARITY]

/-- Claim C3, witness: all of break/parity/frame set (lsr = 0x1D) under a
mask retaining break (0x1E): break flag delivered, parity and frame
counters untouched. -/
theorem rx_break_priority_witness :
    (ch43x_rx_classify 0x1D 0x1E false false).parity = 0 ∧
    (ch43x_rx_classify 0x1D 0x1E false false).frame = 0 ∧
    (ch43x_rx_classify 0x1D 0x1E false false).brk = 1 ∧
    (ch43x_rx_classify 0x1D 0x1E false false).flag = TTY_BREAK := by
  have h := rx_break_priority 0x1D 0x1E false false (by decide)
  exact ⟨h.1, h.2.1, h.2.2.1, h.2.2.2.2.2.1 rfl (by decide)⟩

/-! ## Theorems for claim C7 -/

/-- Claim C7, counterexample. For a byte whose status has both the
overrun and parity bits set (lsr = 0x07 = DR|OE|PE), the parity counter
increments but the overrun counter does not: the overrun increment is the
last arm of an else-if chain, not independent as the claim states. -/
theorem rx_overrun_claim_false :
    0x07 &&& CH43X_LSR_OE_BIT ≠ 0 ∧ 0x07 &&& CH43X_LSR_PE_BIT ≠ 0 ∧
    (ch43x_rx_classify 0x07 0x1E false false).overrun = 0 ∧
    (ch43x_rx_classify 0x07 0x1E false false).parity = 1 := by
  decide

/-- Claim C7, amended: the overrun counter increments exactly when the
overrun bit is set and none of break/parity/frame is set (it is the last
arm of the else-if chain); the derived per-byte flag is never the overrun
flag; and the overrun indicator handed to the sink is true only when the
overrun bit is present both in the status byte and in the
read-status-mask. -/
theorem rx_overrun_chain (lsr mask : Nat) (bc sc : Bool) :
    ((ch43x_rx_classify lsr mask bc sc).overrun =
      if lsr &&& CH43X_LSR_OE_BIT ≠ 0 ∧ lsr &&& CH43X_LSR_BI_BIT = 0 ∧
         lsr &&& CH43X_LSR_PE_BIT = 0 ∧ lsr &&& CH43X_LSR_FE_BIT = 0
       then 1 else 0) ∧
    (ch43x_rx_classify lsr mask bc sc).flag ≠ TTY_OVERRUN ∧
    (∀ fl i, (ch43x_rx_classify lsr mask bc sc).delivered = some (fl, i) → i = true →
      mask &&& CH43X_LSR_OE_BIT ≠ 0 ∧ lsr &&& CH43X_LSR_OE_BIT ≠ 0) := by
  by_cases hBI : lsr &&& CH43X_LSR_BI_BIT = 0
  case neg =>
    have h30 : lsr &&& CH43X_LSR_BRK_ERROR_MASK ≠ 0 :=
      land_sub_ne lsr CH43X_LSR_BRK_ERROR_MASK CH43X_LSR_BI_BIT (by decide) hBI
    cases bc
    case true =>
      simp [ch43x_rx_classify, h30, hBI, TTY_NORMAL, TTY_OVERRUN]
    case false =>
      have hcl : ch43x_rx_classify lsr mask false sc =
          rxDeliver ((lsr &&& (U32MASK ^^^ (CH43X_LSR_FE_BIT ||| CH43X_LSR_PE_BIT))) &&& mask)
            1 0 0 0 sc := by
        simp [ch43x_rx_classify, h30, hBI]
      rw [hcl]
      refine ⟨?_, rxDeliver_flag_ne_overrun _ _ _ _ _ _, ?_⟩
      · rw [rxDeliver_overrun]
        simp [hBI]
      · intro fl i hp hi
        have h2 := rxDeliver_delivered_ind _ _ _ _ _ _ _ _ hp hi
        exact ⟨land2_ne_right _ _ _ h2,
               land2_ne_left _ _ _ (land2_ne_left _ _ _ h2)⟩
  case pos =>
    by_cases hPE : lsr &&& CH43X_LSR_PE_BIT = 0
    case neg =>
      have h30 : lsr &&& CH43X_LSR_BRK_ERROR_MASK ≠ 0 :=
        land_sub_ne lsr CH43X_LSR_BRK_ERROR_MASK CH43X_LSR_PE_BIT (by decide) hPE
      have hcl : ch43x_rx_classify lsr mask bc sc =
          rxDeliver (lsr &&& mask) 0 1 0 0 sc := by
        simp [ch43x_rx_classify, h30, hBI, hPE]
      rw [hcl]
      refine ⟨?_, rxDeliver_flag_ne_overrun _ _ _ _ _ _, ?_⟩
      · rw [rxDeliver_overrun]
        simp [hPE]
      · intro fl i hp hi
        have h2 := rxDeliver_delivered_ind _ _ _ _ _ _ _ _ hp hi
        exact ⟨land2_ne_right _ _ _ h2, land2_ne_left _ _ _ h2⟩
    case pos =>
      by_cases hFE : lsr &&& CH43X_LSR_FE_BIT = 0
      case neg =>
        have h30 : lsr &&& CH43X_LSR_BRK_ERROR_MASK ≠ 0 :=
          land_sub_ne lsr CH43X_LSR_BRK_ERROR_MASK CH43X_LSR_FE_BIT (by decide) hFE
        have hcl : ch43x_rx_classify lsr mask bc sc =
            rxDeliver (lsr &&& mask) 0 0 1 0 sc := by
          simp [ch43x_rx_classify, h30, hBI, hPE, hFE]
        rw [hcl]
        refine ⟨?_, rxDeliver_flag_ne_overrun _ _ _ _ _ _, ?_⟩
        · rw [rxDeliver_overrun]
          simp [hFE]
        · intro fl i hp hi
          have h2 := rxDeliver_delivered_ind _ _ _ _ _ _ _ _ hp hi
          exact ⟨land2_ne_right _ _ _ h2, land2_ne_left _ _ _ h2⟩
      case pos =>
        by_cases hOE : lsr &&& CH43X_LSR_OE_BIT = 0
        case neg =>
          have h30 : lsr &&& CH43X_LSR_BRK_ERROR_MASK ≠ 0 :=
            land_sub_ne lsr CH43X_LSR_BRK_ERROR_MASK CH43X_LSR_OE_BIT (by decide) hOE
          have hcl : ch43x_rx_classify lsr mask bc sc =
              rxDeliver (lsr &&& mask) 0 0 0 1 sc := by
            simp [ch43x_rx_classify, h30, hBI, hPE, hFE, hOE]
          rw [hcl]
          refine ⟨?_, rxDeliver_flag_ne_overrun _ _ _ _ _ _, ?_⟩
          · rw [rxDeliver_overrun]
            simp [hBI, hPE, hFE, hOE]
          · intro fl i hp hi
            have h2 := rxDeliver_delivered_ind _ _ _ _ _ _ _ _ hp hi
            exact ⟨land2_ne_right _ _ _ h2, land2_ne_left _ _ _ h2⟩
        case pos =>
          by_cases h30 : lsr &&& CH43X_LSR_BRK_ERROR_MASK = 0
          case pos =>
            cases sc <;>
              simp [ch43x_rx_classify, h30, hOE, TTY_NORMAL, TTY_OVERRUN]
          case neg =>
            have hcl : ch43x_rx_classify lsr mask bc sc =
                rxDeliver (lsr &&& mask) 0 0 0 0 sc := by
              simp [ch43x_rx_classify, h30, hBI, hPE, hFE, hOE]
            rw [hcl]
            refine ⟨?_, rxDeliver_flag_ne_overrun _ _ _ _ _ _, ?_⟩
            · rw [rxDeliver_overrun]
              simp [hOE]
            · intro fl i hp hi
              have h2 := rxDeliver_delivered_ind _ _ _ _ _ _ _ _ hp hi
              exact ⟨land2_ne_right _ _ _ h2, land2_ne_left _ _ _ h2⟩

/-- Claim C7, witness: a pure overrun byte (lsr = 0x03 = DR|OE) does
increment the overrun counter, and the flag is not the overrun flag. -/
theorem rx_overrun_chain_witness :
    (ch43x_rx_classify 0x03 0x1E false false).overrun = 1 ∧
    (ch43x_rx_classify 0x03 0x1E false false).flag ≠ TTY_OVERRUN := by
  have h := rx_overrun_chain 0x03 0x1E false false
  refine ⟨?_, h.2.1⟩
  rw [h.1]
  decide

/-! ## Theorems for claim C8 -/

/-- Claim C8: with input parity checking disabled (INPCK clear), a
received byte whose status has the parity-error bit set (lsr = DR|PE) is
still counted in the parity counter, but the parity bit is filtered out
by the read-status-mask derived by the configuration path, so the byte is
delivered with the normal flag and a false overrun indicator. -/
theorem rx_parity_filtered (c_iflag : Nat) (hin : c_iflag &&& INPCK = 0) :
    ch43x_rx_classify (CH43X_LSR_DR_BIT ||| CH43X_LSR_PE_BIT)
      (ch43x_read_status_mask c_iflag) false false =
    { flag := TTY_NORMAL, rx := 1, brk := 0, parity := 1, frame := 0,
      overrun := 0, delivered := some (TTY_NORMAL, false) } := by
  by_cases hb : c_iflag &&& (BRKINT ||| PARMRK) = 0
  · have hm : ch43x_read_status_mask c_iflag = CH43X_LSR_OE_BIT := by
      simp [ch43x_read_status_mask, hin, hb]
    rw [hm]
    decide
  · have hm : ch43x_read_status_mask c_iflag =
        CH43X_LSR_OE_BIT ||| CH43X_LSR_BI_BIT := by
      simp [ch43x_read_status_mask, hin, hb]
    rw [hm]
    decide

/-- Claim C8, witness: the theorem at c_iflag = 0. -/
theorem rx_parity_filtered_witness :
    ch43x_rx_classify (CH43X_LSR_DR_BIT ||| CH43X_LSR_PE_BIT)
      (ch43x_read_status_mask 0) false false =
    { flag := TTY_NORMAL, rx := 1, brk := 0, parity := 1, frame := 0,
      overrun := 0, delivered := some (TTY_NORMAL, false) } :=
  rx_parity_filtered 0 (by decide)

/-! ## Theorems for claim C4 -/

/-- Claim C4: with RS485 enabled, the deferred stop-tx body is a no-op
(no delay consumed, no IER change, no bus operation at all) while the
transmitter-empty bit is clear; on an invocation where transmitter-empty
holds, the source is empty and a positive post-send delay is configured,
it performs exactly one delay followed by the THRI disable, in that
order. -/
theorem stop_tx_rs485_gating (r : SerialRs485) (lsr : Nat) :
    (r.flags &&& SER_RS485_ENABLED ≠ 0 → lsr &&& CH43X_LSR_TEMT_BIT = 0 →
      ∀ e : Bool, ch43x_stop_tx_work r lsr e = []) ∧
    (r.flags &&& SER_RS485_ENABLED ≠ 0 → lsr &&& CH43X_LSR_TEMT_BIT ≠ 0 →
      0 < r.delay_rts_after_send →
      ch43x_stop_tx_work r lsr true =
        [WEvent.mdelay r.delay_rts_after_send,
         WEvent.ierClear CH43X_IER_THRI_BIT]) := by
  constructor
  · intro hen htemt e
    simp [ch43x_stop_tx_work, hen, htemt]
  · intro hen htemt hd
    simp [ch43x_stop_tx_work, hen, htemt, hd]

/-- Claim C4, witness: flags = RS485 enabled, post-send delay 5ms; with
TEMT clear the body does nothing, with TEMT set and the source empty the
delay runs once before THRI is disabled. -/
theorem stop_tx_rs485_witness :
    ch43x_stop_tx_work ⟨1, 0, 5⟩ 0 true = [] ∧
    ch43x_stop_tx_work ⟨1, 0, 5⟩ 0x40 true =
      [WEvent.mdelay 5, WEvent.ierClear CH43X_IER_THRI_BIT] :=
  ⟨(stop_tx_rs485_gating ⟨1, 0, 5⟩ 0).1 (by decide) (by decide) true,
   (stop_tx_rs485_gating ⟨1, 0, 5⟩ 0x40).2 (by decide) (by decide) (by decide)⟩

/-! ## Theorems for claim C6 -/

/-- Claim C6, counterexample. The deferred stop-rx body clears the
data-ready bit, not the overrun bit: starting from a read-status-mask
holding exactly the overrun bit, the mask is unchanged after the body
runs — the overrun bit is still set, contradicting the claim. -/
theorem stop_rx_claim_false :
    (ch43x_stop_rx_work CH43X_LSR_OE_BIT 0x0F).read_status_mask
      &&& CH43X_LSR_OE_BIT ≠ 0 ∧
    (ch43x_stop_rx_work CH43X_LSR_OE_BIT 0x0F).read_status_mask =
      CH43X_LSR_OE_BIT := by
  decide

/-- Claim C6, amended: the deferred stop-rx body clears the data-ready
bit from the read-status-mask — the overrun bit is left exactly as it
was, as are all other mask bits below bit 32 — and disables the RX-data
and RX-line-status interrupt enables, leaving every other IER bit
unchanged; its only bus actions are those two IER updates. -/
theorem stop_rx_behavior (rsm ier : Nat) :
    (ch43x_stop_rx_work rsm ier).read_status_mask &&& CH43X_LSR_DR_BIT = 0 ∧
    (ch43x_stop_rx_work rsm ier).read_status_mask &&& CH43X_LSR_OE_BIT =
      rsm &&& CH43X_LSR_OE_BIT ∧
    (∀ i, i < 32 → 1 ≤ i →
      ((ch43x_stop_rx_work rsm ier).read_status_mask).testBit i = rsm.testBit i) ∧
    (ch43x_stop_rx_work rsm ier).ier &&& CH43X_IER_RDI_BIT = 0 ∧
    (ch43x_stop_rx_work rsm ier).ier &&& CH43X_IER_RLSI_BIT = 0 ∧
    (∀ i, i < 32 → i ≠ 0 → i ≠ 2 →
      ((ch43x_stop_rx_work rsm ier).ier).testBit i = ier.testBit i) ∧
    (ch43x_stop_rx_work rsm ier).events =
      [WEvent.ierClear CH43X_IER_RDI_BIT, WEvent.ierClear CH43X_IER_RLSI_BIT] := by
  have hA : ∀ j, j < 32 → 1 ≤ j →
      (U32MASK ^^^ CH43X_LSR_DR_BIT).testBit j = true := by decide
  have hB : ∀ j, j < 32 → j ≠ 0 →
      (U32MASK ^^^ CH43X_IER_RDI_BIT).testBit j = true := by decide
  have hC : ∀ j, j < 32 → j ≠ 2 →
      (U32MASK ^^^ CH43X_IER_RLSI_BIT).testBit j = true := by decide
  refine ⟨?_, ?_, ?_, ?_, ?_, ?_, rfl⟩
  · exact land_right_zero rsm _ _ (by decide)
  · show (rsm &&& (U32MASK ^^^ CH43X_LSR_DR_BIT)) &&& CH43X_LSR_OE_BIT =
      rsm &&& CH43X_LSR_OE_BIT
    rw [Nat.land_assoc,
      show (U32MASK ^^^ CH43X_LSR_DR_BIT) &&& CH43X_LSR_OE_BIT = CH43X_LSR_OE_BIT
        from by decide]
  · intro i hi h1
    show ((rsm &&& (U32MASK ^^^ CH43X_LSR_DR_BIT))).testBit i = rsm.testBit i
    rw [Nat.testBit_land, hA i hi h1, Bool.and_true]
  · exact land_mid_zero ier _ _ _ (by decide)
  · exact land_right_zero _ _ _ (by decide)
  · intro i hi h0 h2
    show (((ier &&& (U32MASK ^^^ CH43X_IER_RDI_BIT)) &&&
      (U32MASK ^^^ CH43X_IER_RLSI_BIT))).testBit i = ier.testBit i
    rw [Nat.testBit_land, Nat.testBit_land, hB i hi h0, hC i hi h2,
      Bool.and_true, Bool.and_true]

/-- Claim C6, witness: mask 0x1E and IER 0x0F: data-ready bit cleared,
overrun preserved, MSI bit (bit 3) of IER preserved. -/
theorem stop_rx_behavior_witness :
    (ch43x_stop_rx_work 0x1E 0x0F).read_status_mask &&& CH43X_LSR_DR_BIT = 0 ∧
    (ch43x_stop_rx_work 0x1E 0x0F).read_status_mask &&& CH43X_LSR_OE_BIT =
      0x1E &&& CH43X_LSR_OE_BIT ∧
    ((ch43x_stop_rx_work 0x1E 0x0F).ier).testBit 3 = (0x0F : Nat).testBit 3 :=
  ⟨(stop_rx_behavior 0x1E 0x0F).1, (stop_rx_behavior 0x1E 0x0F).2.1,
   (stop_rx_behavior 0x1E 0x0F).2.2.2.2.2.1 3 (by decide) (by decide) (by decide)⟩

/-! ## Theorems for claim C5 -/

/-- Claim C5, counterexample. A request for mark parity (8 data bits,
1 stop bit) does not round-trip: `ch43x_set_termios` strips CMSPAR from
the request before computing the parity type, so the composed LCR byte
encodes odd parity and decomposing it yields odd, not mark. -/
theorem lcr_roundtrip_claim_false :
    lcrDecode (ch43x_compose_lcr (cflagOfConfig ⟨8, Parity.pmark, 1⟩)).1 =
      ⟨8, Parity.podd, 1⟩ ∧
    (⟨8, Parity.podd, 1⟩ : LineConfig) ≠ ⟨8, Parity.pmark, 1⟩ := by
  decide

/-- Claim C5, amended: the line-control byte round-trips for every
configuration in {5,6,7,8} word bits x {none, odd, even} parity x {1,2}
stop bits; mark and space are excluded because the configuration path
masks CMSPAR out of the request (line 825) before deriving the parity
field, collapsing mark to odd and space to even. -/
theorem lcr_roundtrip_no_cmspar (w s : Nat) (p : Parity)
    (hw : w = 5 ∨ w = 6 ∨ w = 7 ∨ w = 8) (hs : s = 1 ∨ s = 2)
    (hmark : p ≠ Parity.pmark) (hspace : p ≠ Parity.pspace) :
    lcrDecode (ch43x_compose_lcr (cflagOfConfig ⟨w, p, s⟩)).1 = ⟨w, p, s⟩ := by
  rcases hw with rfl | rfl | rfl | rfl <;> rcases hs with rfl | rfl <;>
    cases p <;>
      first
        | decide
        | exact absurd rfl hmark
        | exact absurd rfl hspace

/-- Claim C5, witness: the round-trip at 8 data bits, even parity,
2 stop bits. -/
theorem lcr_roundtrip_witness :
    lcrDecode (ch43x_compose_lcr (cflagOfConfig ⟨8, Parity.peven, 2⟩)).1 =
      ⟨8, Parity.peven, 2⟩ :=
  lcr_roundtrip_no_cmspar 8 2 Parity.peven (by decide) (by decide)
    (by decide) (by decide)

/-! ## Theorems for claim C9 -/

/-- Claim C9, counterexample. Shutting down channel 1 does not write zero
to channel 1's interrupt-enable register: the write is guarded by
`if (port->line == 0)`. Starting from every register holding 0x0B,
channel 1's IER still holds 0x0B afterwards and no bus operation of the
shutdown writes channel 1's IER at all. -/
theorem shutdown_claim_false :
    ((ch43x_shutdown (fun _ _ => 0x0B) 1).regs 1 CH43X_IER_REG = 0x0B) ∧
    (0x0B : Nat) ≠ 0 ∧
    ((ch43x_shutdown (fun _ _ => 0x0B) 1).trace.all
      fun op => !(writesIER 1 op)) = true := by
  decide

/-- Claim C9, amended: on shutdown, channel 0 gets its IER written to
zero (then the chip sleep bit is set in it, leaving exactly 0x20) and its
MCR written to zero with the forced bits cleared; shutting down channel 1
clears its MCR and forced bits and sets the sleep bit through channel 0's
IER, but never writes channel 1's own IER, which keeps its previous
value. -/
theorem shutdown_behavior (regs : RegFile) :
    ((ch43x_shutdown regs 0).regs 0 CH43X_IER_REG = CH43X_IER_SLEEP_BIT) ∧
    ((ch43x_shutdown regs 0).regs 0 CH43X_MCR_REG = 0) ∧
    ((ch43x_shutdown regs 0).mcr_force = 0) ∧
    ((ch43x_shutdown regs 1).regs 1 CH43X_IER_REG = regs 1 CH43X_IER_REG) ∧
    ((ch43x_shutdown regs 1).regs 1 CH43X_MCR_REG = 0) ∧
    ((ch43x_shutdown regs 1).mcr_force = 0) ∧
    ((ch43x_shutdown regs 1).trace.all fun op => !(writesIER 1 op)) = true ∧
    ((ch43x_shutdown regs 1).regs 0 CH43X_IER_REG =
      u8 ((u8 (regs 0 CH43X_IER_REG) &&& (U32MASK ^^^ CH43X_IER_SLEEP_BIT)) |||
        CH43X_IER_SLEEP_BIT)) := by
  refine ⟨?_, ?_, rfl, ?_, ?_, rfl, ?_, ?_⟩ <;>
    simp [ch43x_shutdown, ch43x_power, ch43x_port_update_specify, regWrite,
      regRead, writesIER, u8, CH43X_IER_REG, CH43X_MCR_REG, CH43X_IER_SLEEP_BIT,
      U32MASK]

/-- Claim C9, witness: the amended behaviour evaluated with every register
initially 7. -/
theorem shutdown_behavior_witness :
    ((ch43x_shutdown (fun _ _ => 7) 0).regs 0 CH43X_IER_REG =
      CH43X_IER_SLEEP_BIT) ∧
    ((ch43x_shutdown (fun _ _ => 7) 1).regs 1 CH43X_IER_REG = 7) :=
  ⟨(shutdown_behavior (fun _ _ => 7)).1,
   (shutdown_behavior (fun _ _ => 7)).2.2.2.1⟩

/-! ## Theorems for claim C10 -/

/-- Claim C10: the word-size switch of `ch43x_set_termios`, applied to a
scrutinee that is none of the four defined size encodings, silently falls
back to the 8-bit word-length encoding and rewrites the caller's request
so that its CSIZE field reads CS8; `ch43x_set_termios` returns no error
(it has no error path at all). -/
theorem word_switch_default (cs c_cflag : Nat)
    (h5 : cs ≠ CS5) (h6 : cs ≠ CS6) (h7 : cs ≠ CS7) (h8 : cs ≠ CS8) :
    (ch43x_word_switch cs c_cflag).1 = CH43X_LCR_WORD_LEN_8 ∧
    (ch43x_word_switch cs c_cflag).2 &&& CSIZE = CS8 := by
  unfold ch43x_word_switch
  rw [if_neg h5, if_neg h6, if_neg h7, if_neg h8]
  exact ⟨rfl, lor_land_self _ _⟩

/-- Claim C10, witness: the default arm at scrutinee 0x08 (not a defined
size) with request 0x208. -/
theorem word_switch_default_witness :
    (ch43x_word_switch 0x08 0x208).1 = CH43X_LCR_WORD_LEN_8 ∧
    (ch43x_word_switch 0x08 0x208).2 &&& CSIZE = CS8 :=
  word_switch_default 0x08 0x208 (by decide) (by decide) (by decide) (by decide)

end CH432
